import Mathlib

/-!
Shallow embedding of the catalog-fetch engine, assignment payload builder,
job poll loop and configuration lookup of the Revit type-parameter
assignment app (`app/controller.py`, `app/helpers.py`), together with
theorems settling the specification claims about them.

Conventions of the embedding:
* Python optional strings become `Option String`; Python truthiness of a
  string value (`None` and `""` are falsy) is `pyTruthy`.
* Python `x or d` on optional strings is `pyOr`.
* Python dicts keyed by strings become association lists with in-place
  update (`mapSet`), matching insertion-order semantics.
* The unbounded `while True` pagination loop is embedded with explicit
  fuel (`fetchGo`); running out of fuel returns `none`, so termination
  statements quantify over fuel.
-/

/-- Python truthiness of an optional string: `None` and `""` are falsy. -/
def pyTruthy : Option String → Bool
  | none => false
  | some s => !(s == "")

/-- Python `x or d` for an optional string `x` and default `d`. -/
def pyOr : Option String → String → String
  | none, d => d
  | some s, d => if s == "" then d else s

theorem pyTruthy_iff (o : Option String) :
    pyTruthy o = true ↔ ∃ s, o = some s ∧ s ≠ "" := by
  cases o with
  | none => simp [pyTruthy]
  | some s => simp [pyTruthy]

theorem pyOr_empty (o : Option String) : pyOr o "" = o.getD "" := by
  cases o with
  | none => rfl
  | some s =>
    by_cases h : s = "" <;> simp [pyOr, h]

/-! ## Query Executor (`execute_graphql`) -/

/-- Pagination block of one elements page (`elements.pagination`). -/
structure PaginationBlock where
  cursor : Option String
deriving DecidableEq, Repr

/-- One raw property entry of a GraphQL element (`properties.results[i]`). -/
structure RawProp where
  name : Option String
  value : Option String
deriving DecidableEq, Repr

/-- The `properties` block of a GraphQL element. -/
structure PropBlock where
  results : Option (List RawProp)
deriving DecidableEq, Repr

/-- The `alternativeIdentifiers` block of a GraphQL element. -/
structure AltIds where
  externalElementId : Option String
deriving DecidableEq, Repr

/-- One raw element of a GraphQL elements page (`results[i]`). -/
structure RawElement where
  properties : Option PropBlock
  alternativeIdentifiers : Option AltIds
deriving DecidableEq, Repr

/-- The `elements` block of the elements query response. -/
structure ElementsBlock where
  pagination : Option PaginationBlock
  results : Option (List RawElement)
deriving DecidableEq, Repr

/-- The `exchange` block of the elements query response. -/
structure ExchangeBlock where
  elements : Option ElementsBlock
deriving DecidableEq, Repr

/-- The `data` payload of the elements query response. -/
structure QueryData where
  exchange : Option ExchangeBlock
deriving DecidableEq, Repr

/-- One HTTP response of the GraphQL endpoint, as seen by `execute_graphql`:
status code, raw body text, decoded `errors` and `data` fields. -/
structure GqlResponse (α : Type) where
  status_code : Nat
  text : String
  errors : Option (List String)
  data : Option α
deriving DecidableEq, Repr

/-- The two failure modes of `execute_graphql`: a transport failure
(non-200 status, carrying status and raw body) and a remote query failure
(application-level error list on a 200 response). -/
inductive GqlFailure where
  | transportFail (status : Nat) (body : String)
  | remoteFail (errors : List String)
deriving DecidableEq, Repr

/-- Message text of each failure, matching the `RuntimeError` f-strings in
`execute_graphql`. -/
def gqlFailureMessage : GqlFailure → String
  | GqlFailure.transportFail status body => "HTTP " ++ toString status ++ ": " ++ body
  | GqlFailure.remoteFail errors => "GraphQL errors: " ++ toString errors

/-- Python truthiness of the decoded `errors` field (a missing field or an
empty list is falsy). -/
def pyTruthyErrors : Option (List String) → Bool
  | none => false
  | some l => !l.isEmpty

/-- Embedding of `execute_graphql` (controller.py:117-135): raise on
non-200 status, raise on a truthy `errors` field, otherwise return
`body.get("data", {})`; `emptyData` stands for the `{}` default. -/
def execute_graphql {α : Type} (emptyData : α) (r : GqlResponse α) : Except GqlFailure α :=
  if r.status_code ≠ 200 then
    Except.error (GqlFailure.transportFail r.status_code r.text)
  else if pyTruthyErrors r.errors then
    Except.error (GqlFailure.remoteFail (r.errors.getD []))
  else
    Except.ok (r.data.getD emptyData)

/-! ## Catalog Builder (`extract_props`, `fetch_elements_catalog`) -/

/-- One catalog record built by `fetch_elements_catalog`: family name,
type name (`element_name`) and external identifier, each possibly absent. -/
structure ElementRecord where
  family_name : Option String
  element_name : Option String
  external_id : Option String
deriving DecidableEq, Repr

/-- The property list `extract_props` iterates over:
`(prop_results or {}).get("results") or []`. -/
def propEntries (pr : Option PropBlock) : List RawProp :=
  ((pr.map PropBlock.results).join).getD []

/-- Embedding of `extract_props` (controller.py:138-147) as a lookup of the
resulting dict: entries with a falsy name are skipped, later entries with
the same name overwrite earlier ones, so a lookup returns the value of the
last entry whose name equals the key. -/
def props_get (pr : Option PropBlock) (key : String) : Option String :=
  match (propEntries pr).reverse.find? (fun p => pyTruthy p.name && (p.name == some key)) with
  | some p => p.value
  | none => none

/-- The external identifier read from an element:
`(element.get("alternativeIdentifiers") or {}).get("externalElementId")`. -/
def altIdOf (el : RawElement) : Option String :=
  (el.alternativeIdentifiers.map AltIds.externalElementId).join

/-- Per-element record construction in the body of the pagination loop of
`fetch_elements_catalog` (controller.py:171-188); the `str()` conversion
of a truthy identifier is the identity on strings. -/
def elementToRecord (el : RawElement) : ElementRecord :=
  { family_name := props_get el.properties "Family Name"
    element_name := props_get el.properties "Element Name"
    external_id := altIdOf el }

/-- An `elements` block with no pagination and no results, the `or {}`
default. -/
def emptyElementsBlock : ElementsBlock :=
  { pagination := none, results := none }

/-- `elements_block` extraction: `(data.get("exchange") or {}).get("elements") or {}`. -/
def elementsBlockOf (d : QueryData) : ElementsBlock :=
  ((d.exchange.map ExchangeBlock.elements).join).getD emptyElementsBlock

/-- The next cursor of a response page:
`(elements_block.get("pagination") or {}).get("cursor")`. -/
def pageCursor (d : QueryData) : Option String :=
  (((elementsBlockOf d).pagination).map PaginationBlock.cursor).join

/-- The result list of a response page: `elements_block.get("results") or []`. -/
def pageResults (d : QueryData) : List RawElement :=
  ((elementsBlockOf d).results).getD []

/-- Fuel-indexed embedding of the `while True` pagination loop of
`fetch_elements_catalog` (controller.py:160-199).  A server behaviour is a
function from the request cursor to the response `data` payload.  Each
iteration appends the page's records and reads the next cursor; the loop
exits exactly when that cursor is falsy.  `none` means the fuel ran out
before the loop exited; the returned `Nat` counts page fetches. -/
def fetchGo (server : Option String → QueryData) :
    Nat → Option String → List ElementRecord → Nat → Option (List ElementRecord × Nat)
  | 0, _, _, _ => none
  | fuel + 1, cursor, acc, count =>
    let d := server cursor
    let acc2 := acc ++ (pageResults d).map elementToRecord
    let newCursor := pageCursor d
    if pyTruthy newCursor then fetchGo server fuel newCursor acc2 (count + 1)
    else some (acc2, count + 1)

/-- Entry point of the loop: initial cursor `None`, empty catalog. -/
def fetch_elements_catalog (server : Option String → QueryData) (fuel : Nat) :
    Option (List ElementRecord × Nat) :=
  fetchGo server fuel none [] 0

/-- The loop of `fetch_elements_catalog` terminates on this server
behaviour: some amount of fuel suffices to reach the exit. -/
def fetchTerminates (server : Option String → QueryData) : Prop :=
  ∃ fuel result, fetch_elements_catalog server fuel = some result

/-- The cursor sent on the `k`-th page fetch: `None` first, then the
cursor returned by the previous response. -/
def reqCursor (server : Option String → QueryData) : Nat → Option String
  | 0 => none
  | k + 1 => pageCursor (server (reqCursor server k))

/-! ## Catalog Cache (`ELEMENT_CACHE`, `get_elements_catalog`) -/

/-- Process-wide cache state: the `ELEMENT_CACHE` dict plus a counter of
underlying catalog builds performed so far. -/
structure CacheState where
  cache : List (String × List ElementRecord)
  builds : Nat
deriving DecidableEq, Repr

/-- Dict lookup in `ELEMENT_CACHE` (`exchange_id in ELEMENT_CACHE`). -/
def cacheLookup (c : List (String × List ElementRecord)) (key : String) :
    Option (List ElementRecord) :=
  (c.find? (fun kv => kv.1 == key)).map Prod.snd

/-- Embedding of `get_elements_catalog` (controller.py:202-211): return the
cached catalog when the key is present, otherwise run the underlying build
(`fetch_elements_catalog`, abstracted as `build`), store and return it. -/
def get_elements_catalog (build : String → List ElementRecord) (key : String)
    (st : CacheState) : List ElementRecord × CacheState :=
  match cacheLookup st.cache key with
  | some catalog => (catalog, st)
  | none =>
    let catalog := build key
    (catalog, { cache := st.cache ++ [(key, catalog)], builds := st.builds + 1 })

/-! ## Version configuration (`TYPE_PARAMETERS_CONFIG`,
`get_type_parameters_signature`) -/

/-- Embedding of the `TYPE_PARAMETERS_CONFIG` table (helpers.py:51-68):
per-version `(signature, activity_full_alias)` pairs, each read with
`os.getenv(name, "")`, i.e. defaulting to `""` when the variable is unset.
The environment is a function from variable name to its optional value. -/
def TYPE_PARAMETERS_CONFIG (env : String → Option String) :
    List (String × (String × String)) :=
  [ ("2023", ((env "TypeParametersActivity2023").getD "",
              (env "ACTIVITY_FULL_ALIAS_TypeParameters2023").getD ""))
  , ("2024", ((env "TypeParametersActivity2024").getD "",
              (env "ACTIVITY_FULL_ALIAS_TypeParameters2024").getD ""))
  , ("2025", ((env "TypeParametersActivity2025").getD "",
              (env "ACTIVITY_FULL_ALIAS_TypeParameters2025").getD ""))
  , ("2026", ((env "TypeParametersActivity2026").getD "",
              (env "ACTIVITY_FULL_ALIAS_TypeParameters2026").getD "")) ]

/-- Dict lookup in the configuration table. -/
def configLookup (t : List (String × (String × String))) (key : String) :
    Option (String × String) :=
  (t.find? (fun kv => kv.1 == key)).map Prod.snd

/-- How Python renders the version inside the f-string of the error
message (`None` for a missing version). -/
def versionText : Option String → String
  | none => "None"
  | some s => s

/-- Embedding of `get_type_parameters_signature` (helpers.py:97-110):
raise `ValueError` when the version is not a key of the table, otherwise
return the `(signature, activity_full_alias)` pair of that version. -/
def get_type_parameters_signature (env : String → Option String)
    (revit_version : Option String) : Except String (String × String) :=
  match revit_version with
  | some v =>
    match configLookup (TYPE_PARAMETERS_CONFIG env) v with
    | some config => Except.ok config
    | none =>
      Except.error ("Revit version '" ++ v ++
        "' is not supported. Supported versions: 2023, 2024, 2025, 2026")
  | none =>
    Except.error ("Revit version '" ++ versionText none ++
      "' is not supported. Supported versions: 2023, 2024, 2025, 2026")

/-- Whether a version value is a key of `TYPE_PARAMETERS_CONFIG`. -/
def versionSupported : Option String → Bool
  | none => false
  | some s => (s == "2023") || (s == "2024") || (s == "2025") || (s == "2026")

/-- Whether an `Except` result is a success. -/
def exceptIsOk {ε α : Type} : Except ε α → Bool
  | Except.ok _ => true
  | Except.error _ => false

/-! ## Job poll loop (`trigger_run_automation`, controller.py:573-597) -/

/-- One status payload returned by `get_workitem_status`: the `status`
string and the optional `reportUrl`. -/
structure StatusPayload where
  status : String
  reportUrl : Option String
deriving DecidableEq, Repr

/-- The terminal statuses recognized by the loop:
`final_status in ("success", "failed", "cancelled")`. -/
def isTerminalStatus (s : String) : Bool :=
  (s == "success") || (s == "failed") || (s == "cancelled")

/-- Embedding of the poll loop `while elapsed <= max_wait` with
`poll_interval = 10` and `max_wait = 600`.  `getStatus i` is the payload
returned by the `i`-th status fetch.  The structural `fuel` argument only
bounds the recursion; `pollResult` passes `61`, enough for every iteration
the `elapsed <= 600` guard admits, so the guard alone decides exit.
Returns the number of status fetches performed and the last payload seen. -/
def pollGo (getStatus : Nat → StatusPayload) :
    Nat → Nat → Nat → Option StatusPayload → Nat × Option StatusPayload
  | 0, _, idx, last => (idx, last)
  | fuel + 1, elapsed, idx, last =>
    if elapsed ≤ 600 then
      let p := getStatus idx
      if isTerminalStatus p.status then (idx + 1, some p)
      else pollGo getStatus fuel (elapsed + 10) (idx + 1) (some p)
    else (idx, last)

/-- The poll loop as run by `trigger_run_automation`: `elapsed = 0`,
no status observed yet. -/
def pollResult (getStatus : Nat → StatusPayload) : Nat × Option StatusPayload :=
  pollGo getStatus 61 0 0 none

/-- The `UserError` message built after the loop when the final status is
not `success`: the status text plus the report URL when that is truthy. -/
def failMessage (p : StatusPayload) : String :=
  let base := "Automation did not finish with success. Status: " ++ p.status
  match p.reportUrl with
  | some u => if u == "" then base else base ++ "\nReport URL: " ++ u
  | none => base

/-- Outcome of `trigger_run_automation` after the poll loop
(controller.py:593-597): raise unless the final status is `success`. -/
def automationOutcome (getStatus : Nat → StatusPayload) : Except String Unit :=
  match (pollResult getStatus).2 with
  | some p =>
    if p.status == "success" then Except.ok ()
    else Except.error (failMessage p)
  | none => Except.error ("Automation did not finish with success. Status: None")

/-! ## Assignment Payload Builder (`create_type_params_json`) -/

/-- One assignment row of the dynamic array, as read with `row.get(...)`. -/
structure AssignmentRow where
  family : Option String
  type_name : Option String
  parameter : Option String
  parameter_group : Option String
  parameter_value : Option String
  color : Option String
deriving DecidableEq, Repr

/-- One target of a payload entry:
`{TypeName: ..., FamilyName: ..., Value: ...}`. -/
structure Target where
  TypeName : String
  FamilyName : String
  Value : String
deriving DecidableEq, Repr

/-- One payload entry:
`{ParameterName: ..., ParameterGroup: ..., Targets: [...]}`. -/
structure ParamEntry where
  ParameterName : String
  ParameterGroup : String
  Targets : List Target
deriving DecidableEq, Repr

/-- The target built from one row (controller.py:94-98). -/
def mkTarget (r : AssignmentRow) : Target :=
  { TypeName := pyOr r.type_name ""
    FamilyName := pyOr r.family ""
    Value := pyOr r.parameter_value "" }

/-- The `(param_name, param_group)` bucket key of a row, with the
`parameter_group or "PG_DATA"` default. -/
def rowKeyF (r : AssignmentRow) : String × String :=
  (r.parameter.getD "", pyOr r.parameter_group "PG_DATA")

/-- Append a target to the bucket of `key`, keeping dict insertion order:
existing buckets keep their position, a new key goes to the end. -/
def addTarget (key : String × String) (t : Target) :
    List ((String × String) × List Target) → List ((String × String) × List Target)
  | [] => [(key, [t])]
  | kv :: rest =>
    if kv.1 = key then (kv.1, kv.2 ++ [t]) :: rest
    else kv :: addTarget key t rest

/-- One iteration of the grouping loop (controller.py:89-99): skip rows
with a falsy `parameter`, otherwise append the row's target to its bucket. -/
def groupStep (acc : List ((String × String) × List Target)) (r : AssignmentRow) :
    List ((String × String) × List Target) :=
  if pyTruthy r.parameter then addTarget (rowKeyF r) (mkTarget r) acc else acc

/-- The `grouped` dict after processing all rows. -/
def groupRows (rows : List AssignmentRow) : List ((String × String) × List Target) :=
  rows.foldl groupStep []

/-- Embedding of `create_type_params_json` (controller.py:83-115): group
rows into buckets, then emit one entry per bucket, skipping empty names
and empty target lists as the second loop does. -/
def create_type_params_json (rows : List AssignmentRow) : List ParamEntry :=
  (groupRows rows).filterMap fun kv =>
    if kv.1.1 = "" then none
    else if kv.2 = [] then none
    else some { ParameterName := kv.1.1, ParameterGroup := kv.1.2, Targets := kv.2 }

/-- The `(ParameterName, ParameterGroup)` key of an emitted entry. -/
def entryKey (e : ParamEntry) : String × String :=
  (e.ParameterName, e.ParameterGroup)

/-- Bucket lookup in the `grouped` dict. -/
def bucketLookup (key : String × String) :
    List ((String × String) × List Target) → Option (List Target)
  | [] => none
  | kv :: rest => if kv.1 = key then some kv.2 else bucketLookup key rest

/-- The targets a key's bucket must hold: the targets of all kept rows
whose key matches, in row order. -/
def bucketSpec (rows : List AssignmentRow) (key : String × String) : List Target :=
  (rows.filter (fun r => pyTruthy r.parameter && decide (rowKeyF r = key))).map mkTarget

/-! ## Derived option lists (`get_family_list`, `get_types_for_family`) -/

/-- Embedding of `get_family_list` (controller.py:263-269):
`sorted({row.get("family_name") for row in catalog if row.get("family_name")})`. -/
def get_family_list (catalog : List ElementRecord) : List String :=
  ((catalog.filterMap (fun r => if pyTruthy r.family_name then r.family_name else none)).toFinset).sort (· ≤ ·)

/-- Embedding of `get_types_for_family` (controller.py:272-282): sorted
distinct truthy `element_name`s of records whose `family_name` equals the
given family exactly. -/
def get_types_for_family (catalog : List ElementRecord) (family_name : String) : List String :=
  ((catalog.filterMap (fun r =>
      if pyTruthy r.element_name && decide (r.family_name = some family_name)
      then r.element_name else none)).toFinset).sort (· ≤ ·)

/-! ## Viewer color mapping (`autodesk_view`, controller.py:443-476) -/

/-- One row of the parameter table (`parameter_section.parameter_table`). -/
structure ParamTableRow where
  parameter_name : Option String
  visualize : Option Bool
deriving DecidableEq, Repr

/-- Membership in the `visible_params` set: some table row has this truthy
parameter name and a truthy `visualize` flag. -/
def visibleParams (paramRows : List ParamTableRow) (p : String) : Bool :=
  paramRows.any (fun pr =>
    pyTruthy pr.parameter_name && (pr.parameter_name == some p) && pr.visualize.getD false)

/-- Embedding of `_color_to_hex` (controller.py:415-418); a color value is
represented by its hex string, absent colors default to blue. -/
def colorToHex (c : Option String) : String :=
  c.getD "#0099ff"

/-- The `matched_elements` list comprehension of `autodesk_view`: catalog
records whose `element_name` equals the row's type and whose family
matches when the row's family is truthy. -/
def matchedElements (catalog : List ElementRecord) (typeName : String)
    (family : Option String) : List ElementRecord :=
  catalog.filter (fun e =>
    decide (e.element_name = some typeName) &&
    (!pyTruthy family || decide (e.family_name = family)))

/-- In-place dict update `d[k] = v`: replace the value of an existing key,
append a fresh key at the end. -/
def mapSet : List (String × String) → String → String → List (String × String)
  | [], k, v => [(k, v)]
  | kv :: rest, k, v =>
    if kv.1 = k then (k, v) :: rest else kv :: mapSet rest k v

/-- Dict lookup in the external-id-to-color map. -/
def mapGet (m : List (String × String)) (k : String) : Option String :=
  (m.find? (fun kv => kv.1 == k)).map Prod.snd

/-- The write performed for one matched element:
`if alt: external_id_color_map[alt] = color_hex`. -/
def writeExt (hex : String) (m : List (String × String)) (e : ElementRecord) :
    List (String × String) :=
  match e.external_id with
  | some s => if s == "" then m else mapSet m s hex
  | none => m

/-- One iteration of the assignment loop of `autodesk_view`
(controller.py:450-474): skip rows with a falsy type, a falsy parameter or
a parameter outside `visible_params`; otherwise color every matched
element's truthy external id.  An empty match only emits a warning. -/
def viewStep (catalog : List ElementRecord) (paramRows : List ParamTableRow)
    (m : List (String × String)) (row : AssignmentRow) : List (String × String) :=
  if !pyTruthy row.type_name then m
  else if !pyTruthy row.parameter then m
  else if !visibleParams paramRows (row.parameter.getD "") then m
  else
    let matched := matchedElements catalog (row.type_name.getD "") row.family
    if matched = [] then m
    else matched.foldl (writeExt (colorToHex row.color)) m

/-- The assignment loop over all rows, starting from map `m`. -/
def buildColorMapGo (catalog : List ElementRecord) (paramRows : List ParamTableRow) :
    List (String × String) → List AssignmentRow → List (String × String)
  | m, [] => m
  | m, r :: rs => buildColorMapGo catalog paramRows (viewStep catalog paramRows m r) rs

/-- The `external_id_color_map` built by `autodesk_view`. -/
def buildColorMap (catalog : List ElementRecord) (paramRows : List ParamTableRow)
    (assignments : List AssignmentRow) : List (String × String) :=
  buildColorMapGo catalog paramRows [] assignments

/-- Whether a row passes the three guards of the loop. -/
def rowPasses (paramRows : List ParamTableRow) (r : AssignmentRow) : Bool :=
  pyTruthy r.type_name && pyTruthy r.parameter &&
    visibleParams paramRows (r.parameter.getD "")

/-- Whether one row writes a color for the external id `ext`: it passes
the guards and some matched element carries that truthy id. -/
def rowWritesExt (catalog : List ElementRecord) (paramRows : List ParamTableRow)
    (r : AssignmentRow) (ext : String) : Bool :=
  rowPasses paramRows r && !(ext == "") &&
    (matchedElements catalog (r.type_name.getD "") r.family).any
      (fun e => e.external_id == some ext)

/-- The last row (in row order) that writes a color for `ext`. -/
def lastWriter (catalog : List ElementRecord) (paramRows : List ParamTableRow)
    (assignments : List AssignmentRow) (ext : String) : Option AssignmentRow :=
  assignments.reverse.find? (fun r => rowWritesExt catalog paramRows r ext)

/-! ## Concrete example inputs used by the witnesses -/

/-- A raw element with the two queried properties and an external id. -/
def mkRawElement (fam typ ext : Option String) : RawElement :=
  ⟨some ⟨some [⟨some "Family Name", fam⟩, ⟨some "Element Name", typ⟩]⟩, some ⟨ext⟩⟩

/-- First page of the two-page example server: one element, cursor `c1`. -/
def examplePage0 : QueryData :=
  ⟨some ⟨some ⟨some ⟨some "c1"⟩, some [mkRawElement (some "F") (some "T") (some "E1")]⟩⟩⟩

/-- Second page of the two-page example server: one element, no cursor. -/
def examplePage1 : QueryData :=
  ⟨some ⟨some ⟨some ⟨none⟩, some [mkRawElement (some "G") (some "T") (some "E2")]⟩⟩⟩

/-- A server behaviour with two pages and an advancing cursor. -/
def exampleServer : Option String → QueryData := fun c =>
  match c with
  | none => examplePage0
  | some s => if s = "c1" then examplePage1 else examplePage0

/-- A server behaviour that answers every request with the same non-empty
cursor `c` and zero results. -/
def badServer : Option String → QueryData := fun _ =>
  ⟨some ⟨some ⟨some ⟨some "c"⟩, some []⟩⟩⟩

/-- A status sequence that never reaches a terminal value. -/
def queuedSeq : Nat → StatusPayload := fun _ =>
  { status := "queued", reportUrl := some "r" }

/-- The status sequence `["queued", "queued", "success"]` of the spec. -/
def exampleSeq : Nat → StatusPayload := fun n =>
  if n = 0 then { status := "queued", reportUrl := none }
  else if n = 1 then { status := "queued", reportUrl := none }
  else { status := "success", reportUrl := some "http://r" }

/-- An underlying catalog build used by the cache witness. -/
def exampleBuild : String → List ElementRecord := fun _ =>
  [⟨some "F", some "T", some "E"⟩]

/-- The empty cache at process start. -/
def emptyCacheState : CacheState := ⟨[], 0⟩

/-- Assignment row `(fam=A, type=T1, param=P, group=G, val=V1)`. -/
def exampleRowA : AssignmentRow :=
  ⟨some "A", some "T1", some "P", some "G", some "V1", none⟩

/-- Assignment row `(fam=B, type=T2, param=P, group=G, val=V2)`. -/
def exampleRowB : AssignmentRow :=
  ⟨some "B", some "T2", some "P", some "G", some "V2", none⟩

/-- Assignment row `(fam=A, type=T3, param="", group=G, val=V3)`. -/
def exampleRowC : AssignmentRow :=
  ⟨some "A", some "T3", some "", some "G", some "V3", none⟩

/-- The three-row example of the grouping claim. -/
def exampleRows : List AssignmentRow := [exampleRowA, exampleRowB, exampleRowC]

/-- A two-record catalog with one type in two families. -/
def exampleCatalog : List ElementRecord :=
  [⟨some "F", some "T", some "E1"⟩, ⟨some "G", some "T", some "E2"⟩]

/-- A parameter table with one visualized parameter `P`. -/
def exampleParamRows : List ParamTableRow :=
  [⟨some "P", some true⟩]

/-- Two assignment rows coloring the same type `T` of family `F`. -/
def exampleAssignments : List AssignmentRow :=
  [ ⟨some "F", some "T", some "P", none, none, some "#111111"⟩
  , ⟨some "F", some "T", some "P", none, none, some "#222222"⟩ ]

/-! # Theorems -/

/-! ## C7: Query Executor error handling -/

/-- C7: `execute_graphql` fails with a transport failure exactly when the
HTTP status is not 200, carrying the status and raw body (whose message
includes both); fails with a remote query failure exactly when the status
is 200 and the body carries a non-empty error list; and otherwise returns
only the data payload, the empty mapping when no data field is present. -/
theorem C7_execute_graphql {α : Type} (emptyData : α) (r : GqlResponse α) :
    (r.status_code ≠ 200 →
      execute_graphql emptyData r =
          Except.error (GqlFailure.transportFail r.status_code r.text)
        ∧ gqlFailureMessage (GqlFailure.transportFail r.status_code r.text) =
            "HTTP " ++ toString r.status_code ++ ": " ++ r.text)
  ∧ (∀ es, r.status_code = 200 → r.errors = some es → es ≠ [] →
      execute_graphql emptyData r = Except.error (GqlFailure.remoteFail es))
  ∧ (r.status_code = 200 → pyTruthyErrors r.errors = false →
      execute_graphql emptyData r = Except.ok (r.data.getD emptyData))
  ∧ (r.status_code = 200 → pyTruthyErrors r.errors = false → r.data = none →
      execute_graphql emptyData r = Except.ok emptyData)
  ∧ (∀ e, execute_graphql emptyData r = Except.error e →
      (e = GqlFailure.transportFail r.status_code r.text ∧ r.status_code ≠ 200) ∨
      (∃ es, e = GqlFailure.remoteFail es ∧ r.status_code = 200 ∧
        r.errors = some es ∧ es ≠ [])) := by
  refine ⟨?_, ?_, ?_, ?_, ?_⟩
  · intro h
    exact ⟨by simp [execute_graphql, h], rfl⟩
  · intro es h200 herr hne
    have htrue : pyTruthyErrors (some es) = true := by
      cases es with
      | nil => exact absurd rfl hne
      | cons a l => simp [pyTruthyErrors]
    simp [execute_graphql, h200, herr, htrue]
  · intro h200 herr
    simp [execute_graphql, h200, herr]
  · intro h200 herr hdata
    simp [execute_graphql, h200, herr, hdata]
  · intro e he
    by_cases h200 : r.status_code = 200
    · right
      cases herr : r.errors with
      | none => simp [execute_graphql, h200, herr, pyTruthyErrors] at he
      | some es =>
        cases es with
        | nil => simp [execute_graphql, h200, herr, pyTruthyErrors] at he
        | cons a l =>
          simp [execute_graphql, h200, herr, pyTruthyErrors] at he
          exact ⟨a :: l, he.symm, h200, rfl, by simp⟩
    · left
      simp [execute_graphql, h200] at he
      exact ⟨he.symm, h200⟩

/-- Witness for C7 at concrete responses: a 404 response, a 200 response
with one application error, and a 200 response without data field. -/
theorem C7_execute_graphql_witness :
    execute_graphql emptyElementsBlock
        (⟨404, "boom", none, none⟩ : GqlResponse ElementsBlock) =
      Except.error (GqlFailure.transportFail 404 "boom")
  ∧ execute_graphql emptyElementsBlock
        (⟨200, "ok", some ["bad query"], none⟩ : GqlResponse ElementsBlock) =
      Except.error (GqlFailure.remoteFail ["bad query"])
  ∧ execute_graphql emptyElementsBlock
        (⟨200, "ok", none, none⟩ : GqlResponse ElementsBlock) =
      Except.ok emptyElementsBlock := by
  refine ⟨?_, ?_, ?_⟩
  · exact ((C7_execute_graphql emptyElementsBlock ⟨404, "boom", none, none⟩).1
      (by decide)).1
  · exact (C7_execute_graphql emptyElementsBlock
      ⟨200, "ok", some ["bad query"], none⟩).2.1 ["bad query"] rfl rfl (by simp)
  · exact (C7_execute_graphql emptyElementsBlock
      ⟨200, "ok", none, none⟩).2.2.2.1 rfl rfl rfl

/-! ## C2: version configuration lookup -/

/-- Counterexample to C2 as stated: with every configuration environment
variable unset, resolving the supported version `2024` does not fail, it
returns the empty signature and empty alias as if they were valid. -/
theorem C2_missing_config_cex :
    get_type_parameters_signature (fun _ => none) (some "2024") =
      Except.ok ("", "") := rfl

/-- C2 as amended: `get_type_parameters_signature` fails exactly when the
version key (including a missing version) is absent from the four-version
table; for a supported version it returns the environment-provided
`(signature, activity alias)` pair unchecked, which degenerates to a pair
of empty strings when the variables are unset. -/
theorem C2_version_lookup (env : String → Option String) (v : Option String) :
    exceptIsOk (get_type_parameters_signature env v) = versionSupported v
  ∧ get_type_parameters_signature env (some "2023") =
      Except.ok ((env "TypeParametersActivity2023").getD "",
        (env "ACTIVITY_FULL_ALIAS_TypeParameters2023").getD "")
  ∧ get_type_parameters_signature env (some "2024") =
      Except.ok ((env "TypeParametersActivity2024").getD "",
        (env "ACTIVITY_FULL_ALIAS_TypeParameters2024").getD "")
  ∧ get_type_parameters_signature env (some "2025") =
      Except.ok ((env "TypeParametersActivity2025").getD "",
        (env "ACTIVITY_FULL_ALIAS_TypeParameters2025").getD "")
  ∧ get_type_parameters_signature env (some "2026") =
      Except.ok ((env "TypeParametersActivity2026").getD "",
        (env "ACTIVITY_FULL_ALIAS_TypeParameters2026").getD "") := by
  refine ⟨?_, rfl, rfl, rfl, rfl⟩
  cases v with
  | none => rfl
  | some s =>
    by_cases h1 : s = "2023"
    · subst h1; rfl
    by_cases h2 : s = "2024"
    · subst h2; rfl
    by_cases h3 : s = "2025"
    · subst h3; rfl
    by_cases h4 : s = "2026"
    · subst h4; rfl
    have b1 : ("2023" == s) = false := beq_eq_false_iff_ne.mpr fun h => h1 h.symm
    have b2 : ("2024" == s) = false := beq_eq_false_iff_ne.mpr fun h => h2 h.symm
    have b3 : ("2025" == s) = false := beq_eq_false_iff_ne.mpr fun h => h3 h.symm
    have b4 : ("2026" == s) = false := beq_eq_false_iff_ne.mpr fun h => h4 h.symm
    have c1 : (s == "2023") = false := beq_eq_false_iff_ne.mpr h1
    have c2 : (s == "2024") = false := beq_eq_false_iff_ne.mpr h2
    have c3 : (s == "2025") = false := beq_eq_false_iff_ne.mpr h3
    have c4 : (s == "2026") = false := beq_eq_false_iff_ne.mpr h4
    simp [get_type_parameters_signature, configLookup, TYPE_PARAMETERS_CONFIG,
      List.find?, versionSupported, exceptIsOk, b1, b2, b3, b4, c1, c2, c3, c4]

/-! ## C5: catalog cache idempotence -/

theorem cacheLookup_append_self (c : List (String × List ElementRecord))
    (key : String) (v : List ElementRecord) (h : cacheLookup c key = none) :
    cacheLookup (c ++ [(key, v)]) key = some v := by
  induction c with
  | nil => simp [cacheLookup, List.find?]
  | cons kv rest ih =>
    by_cases hk : kv.1 == key
    · exfalso
      simp [cacheLookup, List.find?, hk] at h
    · simp only [cacheLookup, List.find?, List.cons_append, hk] at h ⊢
      exact ih h

/-- C5: starting from a state where the model key is absent, the first
call to `get_elements_catalog` performs exactly one underlying build and
returns its catalog; a second call with the same key returns the stored
catalog and leaves the state (in particular the build count) unchanged. -/
theorem C5_cache_idempotent (build : String → List ElementRecord) (key : String)
    (st : CacheState) (h : cacheLookup st.cache key = none) :
    (get_elements_catalog build key st).1 = build key
  ∧ (get_elements_catalog build key st).2.builds = st.builds + 1
  ∧ get_elements_catalog build key (get_elements_catalog build key st).2 =
      ((get_elements_catalog build key st).1, (get_elements_catalog build key st).2) := by
  have h1 : get_elements_catalog build key st =
      (build key, ⟨st.cache ++ [(key, build key)], st.builds + 1⟩) := by
    simp [get_elements_catalog, h]
  refine ⟨by rw [h1], by rw [h1], ?_⟩
  rw [h1]
  simp [get_elements_catalog, cacheLookup_append_self st.cache key (build key) h]

/-- Witness for C5: on the empty cache, two calls for key `m` build once
and agree. -/
theorem C5_cache_idempotent_witness :
    (get_elements_catalog exampleBuild "m" emptyCacheState).1 = exampleBuild "m"
  ∧ (get_elements_catalog exampleBuild "m" emptyCacheState).2.builds =
      emptyCacheState.builds + 1
  ∧ get_elements_catalog exampleBuild "m"
        (get_elements_catalog exampleBuild "m" emptyCacheState).2 =
      ((get_elements_catalog exampleBuild "m" emptyCacheState).1,
       (get_elements_catalog exampleBuild "m" emptyCacheState).2) :=
  C5_cache_idempotent exampleBuild "m" emptyCacheState rfl

/-! ## C3 and C8: the poll loop -/

theorem pollGo_nonterminal (gs : Nat → StatusPayload)
    (h : ∀ i, isTerminalStatus (gs i).status = false) :
    ∀ k idx last, k ≤ 60 →
      pollGo gs (k + 1) (600 - 10 * k) idx last = (idx + (k + 1), some (gs (idx + k))) := by
  intro k
  induction k with
  | zero =>
    intro idx last _
    simp [pollGo, h idx]
  | succ k ih =>
    intro idx last hk
    have hle : 600 - 10 * (k + 1) ≤ 600 := Nat.sub_le _ _
    have hstep : 600 - 10 * (k + 1) + 10 = 600 - 10 * k := by omega
    rw [pollGo]
    simp only [hle, if_pos, h idx]
    rw [if_neg (by simp [h idx]), hstep, ih (idx + 1) (some (gs idx)) (by omega)]
    have e1 : idx + 1 + (k + 1) = idx + (k + 1 + 1) := by omega
    have e2 : idx + 1 + k = idx + (k + 1) := by omega
    rw [e1, e2]

theorem pollGo_terminal (gs : Nat → StatusPayload) :
    ∀ n fuel elapsed idx last, n < fuel → elapsed + 10 * n ≤ 600 →
      (∀ j, j < n → isTerminalStatus (gs (idx + j)).status = false) →
      isTerminalStatus (gs (idx + n)).status = true →
      pollGo gs fuel elapsed idx last = (idx + n + 1, some (gs (idx + n))) := by
  intro n
  induction n with
  | zero =>
    intro fuel elapsed idx last hfuel helap _ hterm
    cases fuel with
    | zero => omega
    | succ f =>
      have h600 : elapsed ≤ 600 := by omega
      rw [pollGo]
      simp only [h600, if_pos]
      rw [if_pos (by simpa using hterm)]
      simp
  | succ n ih =>
    intro fuel elapsed idx last hfuel helap hbefore hterm
    cases fuel with
    | zero => omega
    | succ f =>
      have h600 : elapsed ≤ 600 := by omega
      have hidx0 : isTerminalStatus (gs idx).status = false := by
        simpa using hbefore 0 (by omega)
      rw [pollGo]
      simp only [h600, if_pos]
      rw [if_neg (by simp [hidx0])]
      have hrec := ih f (elapsed + 10) (idx + 1) (some (gs idx)) (by omega) (by omega)
        (fun j hj => by
          have := hbefore (j + 1) (by omega)
          rwa [show idx + (j + 1) = idx + 1 + j by omega] at this)
        (by rwa [show idx + 1 + n = idx + (n + 1) by omega])
      rw [hrec]
      have e1 : idx + 1 + n + 1 = idx + (n + 1) + 1 := by omega
      have e2 : idx + 1 + n = idx + (n + 1) := by omega
      rw [e1, e2]

/-- C3: when every observed status is non-terminal, the poll loop stops
after its 61st fetch (elapsed 0,10,...,600) and `trigger_run_automation`
fails with the `UserError` whose message reports the last observed status
and, when present, the report URL; it neither retries nor succeeds. -/
theorem C3_timeout_error (gs : Nat → StatusPayload)
    (h : ∀ i, isTerminalStatus (gs i).status = false) :
    pollResult gs = (61, some (gs 60))
  ∧ automationOutcome gs = Except.error (failMessage (gs 60))
  ∧ (∃ rest, failMessage (gs 60) =
      ("Automation did not finish with success. Status: " ++ (gs 60).status) ++ rest) := by
  have hpoll : pollResult gs = (61, some (gs 60)) := by
    have := pollGo_nonterminal gs h 60 0 none (by omega)
    simpa [pollResult] using this
  have hsucc : ((gs 60).status == "success") = false := by
    have h60 := h 60
    by_cases hb : (gs 60).status = "success"
    · rw [hb] at h60
      simp [isTerminalStatus] at h60
    · exact beq_eq_false_iff_ne.mpr hb
  refine ⟨hpoll, ?_, ?_⟩
  · rw [automationOutcome, hpoll]
    simp [hsucc]
  · rw [failMessage]
    cases hu : (gs 60).reportUrl with
    | none => exact ⟨"", by simp⟩
    | some u =>
      by_cases hue : u == ""
      · exact ⟨"", by simp [hue]⟩
      · exact ⟨"\nReport URL: " ++ u, by simp [hue, String.append_assoc]⟩

/-- Witness for C3: the constant `queued` sequence with report URL `r`
times out after 61 fetches and raises with the queued status. -/
theorem C3_timeout_error_witness :
    pollResult queuedSeq = (61, some ⟨"queued", some "r"⟩)
  ∧ automationOutcome queuedSeq = Except.error (failMessage ⟨"queued", some "r"⟩) := by
  have h := C3_timeout_error queuedSeq (fun i => rfl)
  exact ⟨h.1, h.2.1⟩

/-- C8: once a terminal status is observed at fetch `i` (all earlier
statuses being non-terminal, hence treated as in-progress), the loop
performs exactly `i + 1` fetches and stops; the run succeeds exactly when
that terminal status is `success`. -/
theorem C8_terminal_stop (gs : Nat → StatusPayload) (i : Nat) (hi : i ≤ 60)
    (hbefore : ∀ j, j < i → isTerminalStatus (gs j).status = false)
    (hterm : isTerminalStatus (gs i).status = true) :
    pollResult gs = (i + 1, some (gs i))
  ∧ automationOutcome gs =
      (if (gs i).status == "success" then Except.ok ()
       else Except.error (failMessage (gs i))) := by
  have hpoll : pollResult gs = (i + 1, some (gs i)) := by
    have := pollGo_terminal gs i 61 0 0 none (by omega) (by omega)
      (fun j hj => by simpa using hbefore j hj) (by simpa using hterm)
    simpa [pollResult] using this
  refine ⟨hpoll, ?_⟩
  rw [automationOutcome, hpoll]

/-- Witness for C8: the sequence `["queued","queued","success"]` stops at
the third fetch with success. -/
theorem C8_terminal_stop_witness :
    pollResult exampleSeq = (3, some ⟨"success", some "http://r"⟩)
  ∧ automationOutcome exampleSeq = Except.ok () := by
  have h := C8_terminal_stop exampleSeq 2 (by omega)
    (by intro j hj; interval_cases j <;> rfl) rfl
  exact ⟨h.1, h.2.trans rfl⟩

/-! ## C1 and C6: the pagination loop -/

theorem fetchGo_run (server : Option String → QueryData) (N : Nat)
    (hadv : ∀ i, i < N → pyTruthy (pageCursor (server (reqCursor server i))) = true)
    (hstop : pyTruthy (pageCursor (server (reqCursor server N))) = false) :
    ∀ m i acc count, i + m = N →
      fetchGo server (m + 1) (reqCursor server i) acc count =
        some (acc ++ ((List.range' i (m + 1)).map
            (fun j => (pageResults (server (reqCursor server j))).map elementToRecord)).flatten,
          count + (m + 1)) := by
  intro m
  induction m with
  | zero =>
    intro i acc count h0
    have hiN : i = N := by omega
    subst hiN
    rw [fetchGo]
    simp [hstop, List.range']
  | succ m ih =>
    intro i acc count hN
    have hiN : i < N := by omega
    have hstep : pageCursor (server (reqCursor server i)) = reqCursor server (i + 1) := rfl
    rw [fetchGo]
    simp only [hadv i hiN, if_pos]
    rw [hstep, ih (i + 1) (acc ++ (pageResults (server (reqCursor server i))).map elementToRecord)
      (count + 1) (by omega)]
    simp [List.range', List.append_assoc]
    omega

theorem fetchGo_mono (server : Option String → QueryData) :
    ∀ fuel fuel' cursor acc count r, fuel ≤ fuel' →
      fetchGo server fuel cursor acc count = some r →
      fetchGo server fuel' cursor acc count = some r := by
  intro fuel
  induction fuel with
  | zero =>
    intro fuel' cursor acc count r _ h
    simp [fetchGo] at h
  | succ f ih =>
    intro fuel' cursor acc count r hle h
    cases fuel' with
    | zero => omega
    | succ f' =>
      rw [fetchGo] at h ⊢
      by_cases hc : pyTruthy (pageCursor (server cursor))
      · rw [if_pos hc] at h ⊢
        exact ih f' _ _ _ r (by omega) h
      · rw [if_neg hc] at h ⊢
        exact h

theorem badServer_no_exit :
    ∀ fuel cursor acc count, fetchGo badServer fuel cursor acc count = none := by
  intro fuel
  induction fuel with
  | zero => intro cursor acc count; rfl
  | succ f ih =>
    intro cursor acc count
    rw [fetchGo]
    rw [if_pos (by rfl)]
    exact ih _ _ _

/-- Counterexample to C1 as stated: `badServer` answers every fetch with
the same non-empty cursor `c` and zero results, yet the pagination loop of
`fetch_elements_catalog` never exits — no amount of fuel reaches the exit,
so the build loops forever rather than terminating after the second page. -/
theorem C1_cycle_guard_cex :
    pageCursor (badServer none) = some "c"
  ∧ pageCursor (badServer (some "c")) = some "c"
  ∧ pageResults (badServer (some "c")) = []
  ∧ ¬ fetchTerminates badServer := by
  refine ⟨rfl, rfl, rfl, ?_⟩
  rintro ⟨fuel, r, h⟩
  rw [fetch_elements_catalog, badServer_no_exit] at h
  cases h

theorem fetchGo_exit_of_some (server : Option String → QueryData) :
    ∀ fuel i acc count r,
      fetchGo server fuel (reqCursor server i) acc count = some r →
      ∃ k, pyTruthy (pageCursor (server (reqCursor server k))) = false := by
  intro fuel
  induction fuel with
  | zero =>
    intro i acc count r h
    simp [fetchGo] at h
  | succ f ih =>
    intro i acc count r h
    rw [fetchGo] at h
    by_cases hc : pyTruthy (pageCursor (server (reqCursor server i)))
    · rw [if_pos hc] at h
      exact ih (i + 1) _ _ r h
    · exact ⟨i, by simpa using hc⟩

/-- C1 as amended: the pagination loop of `fetch_elements_catalog`
terminates exactly when some fetch along the cursor chain returns a falsy
(empty or unset) cursor; there is no same-cursor cycle guard and no
zero-results exit, so a server that keeps returning a non-empty cursor
makes the build loop forever. -/
theorem C1_termination_iff (server : Option String → QueryData) :
    fetchTerminates server ↔
      ∃ k, pyTruthy (pageCursor (server (reqCursor server k))) = false := by
  constructor
  · rintro ⟨fuel, r, h⟩
    exact fetchGo_exit_of_some server fuel 0 [] 0 r h
  · intro hex
    have hP : ∃ k, (pyTruthy (pageCursor (server (reqCursor server k))) = false) := hex
    classical
    let N := Nat.find hP
    have hstop : pyTruthy (pageCursor (server (reqCursor server N))) = false :=
      Nat.find_spec hP
    have hadv : ∀ i, i < N → pyTruthy (pageCursor (server (reqCursor server i))) = true := by
      intro i hi
      have := Nat.find_min hP hi
      exact Bool.not_eq_false _ |>.mp this
    have hrun := fetchGo_run server N hadv hstop N 0 [] 0 (by omega)
    exact ⟨N + 1, _, hrun⟩

/-- Witness for C1 (amended): the two-page example server terminates, via
the falsy cursor its second response returns. -/
theorem C1_termination_iff_witness : fetchTerminates exampleServer :=
  (C1_termination_iff exampleServer).mpr ⟨1, rfl⟩

/-- C6: for a server returning `N` advancing pages and a falsy cursor on
page `N + 1`, the build performs exactly `N + 1` fetches and returns the
concatenation of all pages' element records in page order; each record is
the per-element conversion whose external id is the element's identifier
when that is non-empty and `None` when the element carries none. -/
theorem C6_pagination (server : Option String → QueryData) (N fuel : Nat)
    (hadv : ∀ i, i < N → pyTruthy (pageCursor (server (reqCursor server i))) = true)
    (hstop : pyTruthy (pageCursor (server (reqCursor server N))) = false)
    (hfuel : N + 1 ≤ fuel) :
    fetch_elements_catalog server fuel =
      some (((List.range (N + 1)).map
          (fun j => (pageResults (server (reqCursor server j))).map elementToRecord)).flatten,
        N + 1)
  ∧ (∀ el s, altIdOf el = some s → s ≠ "" → (elementToRecord el).external_id = some s)
  ∧ (∀ el, altIdOf el = none → (elementToRecord el).external_id = none) := by
  refine ⟨?_, ?_, ?_⟩
  · have hrun := fetchGo_run server N hadv hstop N 0 [] 0 (by omega)
    have hmono := fetchGo_mono server (N + 1) fuel (reqCursor server 0) [] 0 _ hfuel hrun
    rw [fetch_elements_catalog]
    rw [show (none : Option String) = reqCursor server 0 from rfl, hmono]
    simp [List.range_eq_range']
  · intro el s h _
    simp [elementToRecord, h]
  · intro el h
    simp [elementToRecord, h]

/-- Witness for C6: the two-page example server yields both pages' records
in order after exactly two fetches. -/
theorem C6_pagination_witness :
    fetch_elements_catalog exampleServer 2 =
      some ([⟨some "F", some "T", some "E1"⟩, ⟨some "G", some "T", some "E2"⟩], 2) := by
  have h := (C6_pagination exampleServer 1 2
    (by intro i hi; interval_cases i; rfl) rfl (by omega)).1
  exact h.trans rfl

/-! ## C4: assignment payload grouping -/

theorem bucketLookup_addTarget (key k : String × String) (t : Target)
    (acc : List ((String × String) × List Target)) :
    bucketLookup k (addTarget key t acc) =
      if k = key then some ((bucketLookup key acc).getD [] ++ [t])
      else bucketLookup k acc := by
  induction acc with
  | nil =>
    by_cases h : k = key
    · subst h
      simp [addTarget, bucketLookup]
    · have h' : ¬ (key = k) := fun e => h e.symm
      simp [addTarget, bucketLookup, h, h']
  | cons kv rest ih =>
    by_cases h1 : kv.1 = key
    · by_cases h2 : kv.1 = k
      · have h3 : k = key := h2 ▸ h1
        simp [addTarget, bucketLookup, h1, h2, h3]
      · have h3 : ¬ (k = key) := fun e => h2 (h1.trans e.symm)
        have h3' : ¬ (key = k) := fun e => h3 e.symm
        simp [addTarget, bucketLookup, h1, h2, h3, h3']
    · by_cases h2 : kv.1 = k
      · have h3 : ¬ (k = key) := fun e => h1 (h2.trans e)
        simp [addTarget, bucketLookup, h1, h2, h3]
      · simp [addTarget, bucketLookup, h1, h2, ih]

theorem addTarget_keys (key : String × String) (t : Target)
    (acc : List ((String × String) × List Target)) :
    (addTarget key t acc).map Prod.fst =
      if key ∈ acc.map Prod.fst then acc.map Prod.fst
      else acc.map Prod.fst ++ [key] := by
  induction acc with
  | nil => simp [addTarget]
  | cons kv rest ih =>
    by_cases h1 : kv.1 = key
    · simp [addTarget, h1]
    · have h1' : ¬ (key = kv.1) := fun e => h1 e.symm
      by_cases h2 : key ∈ rest.map Prod.fst
      · simp [addTarget, h1, h1', h2, ih]
      · simp [addTarget, h1, h1', h2, ih]

theorem bucketLookup_eq_none_iff (k : String × String)
    (l : List ((String × String) × List Target)) :
    bucketLookup k l = none ↔ k ∉ l.map Prod.fst := by
  induction l with
  | nil => simp [bucketLookup]
  | cons kv rest ih =>
    by_cases h : kv.1 = k
    · simp [bucketLookup, h]
    · have h' : ¬ (k = kv.1) := fun e => h e.symm
      simp [bucketLookup, h, h', ih]

theorem bucketLookup_of_mem (l : List ((String × String) × List Target))
    (hnd : (l.map Prod.fst).Nodup) (kv : (String × String) × List Target)
    (h : kv ∈ l) : bucketLookup kv.1 l = some kv.2 := by
  induction l with
  | nil => cases h
  | cons kv' rest ih =>
    rw [List.map_cons, List.nodup_cons] at hnd
    cases h with
    | head => simp [bucketLookup]
    | tail _ hmem =>
      have hne : ¬ (kv'.1 = kv.1) := by
        intro e
        exact hnd.1 (e ▸ List.mem_map_of_mem Prod.fst hmem)
      simp [bucketLookup, hne]
      exact ih hnd.2 hmem

theorem groupRows_foldl_filter (rows : List AssignmentRow) :
    ∀ acc, (rows.filter (fun r => pyTruthy r.parameter)).foldl groupStep acc =
      rows.foldl groupStep acc := by
  induction rows with
  | nil => intro acc; rfl
  | cons r rs ih =>
    intro acc
    by_cases h : pyTruthy r.parameter
    · simp [List.filter_cons, h, List.foldl_cons, ih]
    · simp [List.filter_cons, h, List.foldl_cons, ih, groupStep]

theorem bucketSpec_append (rows : List AssignmentRow) (r : AssignmentRow)
    (k : String × String) :
    bucketSpec (rows ++ [r]) k =
      bucketSpec rows k ++
        (if pyTruthy r.parameter && decide (rowKeyF r = k) then [mkTarget r] else []) := by
  rw [bucketSpec, List.filter_append, List.map_append]
  by_cases h : pyTruthy r.parameter && decide (rowKeyF r = k) <;>
    simp [bucketSpec, List.filter_cons, h]

theorem groupRows_lookup (rows : List AssignmentRow) (k : String × String) :
    bucketLookup k (groupRows rows) =
      if bucketSpec rows k = [] then none else some (bucketSpec rows k) := by
  induction rows using List.reverseRecOn with
  | nil => simp [groupRows, bucketSpec, bucketLookup]
  | append_singleton rs r ih =>
    have hgr : groupRows (rs ++ [r]) = groupStep (groupRows rs) r := by
      simp [groupRows, List.foldl_append]
    rw [hgr, bucketSpec_append]
    by_cases hkept : pyTruthy r.parameter
    · by_cases hkey : rowKeyF r = k
      · have hcond : (pyTruthy r.parameter && decide (rowKeyF r = k)) = true := by
          simp [hkept, hkey]
        rw [groupStep, if_pos hkept, bucketLookup_addTarget, if_pos hkey.symm, hkey, ih]
        by_cases hnil : bucketSpec rs k = []
        · simp [hcond, hnil, hkept]
        · simp [hcond, hnil, hkept]
      · have hcond : (pyTruthy r.parameter && decide (rowKeyF r = k)) = false := by
          simp [hkey]
        have hkey' : ¬ (k = rowKeyF r) := fun e => hkey e.symm
        rw [groupStep, if_pos hkept, bucketLookup_addTarget, if_neg hkey', ih]
        simp [hcond]
    · have hcond : (pyTruthy r.parameter && decide (rowKeyF r = k)) = false := by
        simp [hkept]
      rw [groupStep, if_neg hkept, ih]
      simp [hcond]

theorem groupRows_keys_nodup (rows : List AssignmentRow) :
    ((groupRows rows).map Prod.fst).Nodup := by
  induction rows using List.reverseRecOn with
  | nil => simp [groupRows]
  | append_singleton rs r ih =>
    have hgr : groupRows (rs ++ [r]) = groupStep (groupRows rs) r := by
      simp [groupRows, List.foldl_append]
    rw [hgr, groupStep]
    by_cases hkept : pyTruthy r.parameter
    · rw [if_pos hkept, addTarget_keys]
      by_cases hmem : rowKeyF r ∈ (groupRows rs).map Prod.fst
      · simp [hmem, ih]
      · simp [hmem, ih, List.nodup_append, List.disjoint_left]
    · rw [if_neg hkept]
      exact ih

theorem bucketSpec_ne_nil_iff (rows : List AssignmentRow) (k : String × String) :
    bucketSpec rows k ≠ [] ↔
      ∃ r, r ∈ rows ∧ pyTruthy r.parameter = true ∧ rowKeyF r = k := by
  rw [bucketSpec]
  constructor
  · intro h
    rcases List.exists_mem_of_ne_nil _ h with ⟨t, ht⟩
    rcases List.mem_map.mp ht with ⟨r, hr, _⟩
    rcases List.mem_filter.mp hr with ⟨hmem, hcond⟩
    rcases (Bool.and_eq_true _ _).mp hcond with ⟨h1, h2⟩
    exact ⟨r, hmem, h1, of_decide_eq_true h2⟩
  · rintro ⟨r, hmem, h1, h2⟩
    intro hnil
    rw [List.map_eq_nil_iff] at hnil
    have : r ∈ rows.filter (fun r => pyTruthy r.parameter && decide (rowKeyF r = k)) :=
      List.mem_filter.mpr ⟨hmem, by simp [h1, h2]⟩
    rw [hnil] at this
    cases this

theorem groupRows_mem_props (rows : List AssignmentRow)
    (kv : (String × String) × List Target) (h : kv ∈ groupRows rows) :
    kv.2 = bucketSpec rows kv.1 ∧ kv.2 ≠ [] ∧ kv.1.1 ≠ "" := by
  have hlook := bucketLookup_of_mem (groupRows rows) (groupRows_keys_nodup rows) kv h
  rw [groupRows_lookup] at hlook
  by_cases hnil : bucketSpec rows kv.1 = []
  · rw [if_pos hnil] at hlook
    cases hlook
  · rw [if_neg hnil] at hlook
    have hval : kv.2 = bucketSpec rows kv.1 := (Option.some.inj hlook).symm
    refine ⟨hval, hval ▸ hnil, ?_⟩
    rcases (bucketSpec_ne_nil_iff rows kv.1).mp hnil with ⟨r, _, hkept, hkey⟩
    rcases (pyTruthy_iff r.parameter).mp hkept with ⟨p, hp, hpne⟩
    have : kv.1.1 = p := by
      rw [← hkey, rowKeyF, hp]
      rfl
    rw [this]
    exact hpne

theorem filterMap_guard_eq_map (l : List ((String × String) × List Target))
    (h : ∀ kv, kv ∈ l → kv.1.1 ≠ "" ∧ kv.2 ≠ []) :
    (l.filterMap fun kv =>
      if kv.1.1 = "" then none
      else if kv.2 = [] then none
      else some { ParameterName := kv.1.1, ParameterGroup := kv.1.2, Targets := kv.2 }) =
    l.map fun kv =>
      ({ ParameterName := kv.1.1, ParameterGroup := kv.1.2, Targets := kv.2 } : ParamEntry) := by
  induction l with
  | nil => rfl
  | cons kv rest ih =>
    have hkv := h kv (List.mem_cons_self kv rest)
    rw [List.filterMap_cons, List.map_cons]
    rw [if_neg hkv.1, if_neg hkv.2]
    rw [ih (fun kv' h' => h kv' (List.mem_cons_of_mem kv h'))]

theorem create_eq_map (rows : List AssignmentRow) :
    create_type_params_json rows = (groupRows rows).map fun kv =>
      ({ ParameterName := kv.1.1, ParameterGroup := kv.1.2, Targets := kv.2 } : ParamEntry) := by
  rw [create_type_params_json]
  exact filterMap_guard_eq_map (groupRows rows)
    (fun kv h => ⟨(groupRows_mem_props rows kv h).2.2, (groupRows_mem_props rows kv h).2.1⟩)

theorem create_keys (rows : List AssignmentRow) :
    (create_type_params_json rows).map entryKey = (groupRows rows).map Prod.fst := by
  rw [create_eq_map, List.map_map]
  simp [entryKey, Function.comp]

/-- C4: `create_type_params_json` ignores rows with an empty parameter
(building the same payload as on the kept rows alone), produces entries
with pairwise distinct `(parameter, group)` keys, gives each entry exactly
the targets of the kept rows with that key (with the group defaulting and
field coercions of `rowKeyF` and `mkTarget`), never an empty target list,
and has an entry for a key exactly when some kept row carries it. -/
theorem C4_grouping (rows : List AssignmentRow) :
    create_type_params_json rows =
      create_type_params_json (rows.filter (fun r => pyTruthy r.parameter))
  ∧ ((create_type_params_json rows).map entryKey).Nodup
  ∧ (∀ e, e ∈ create_type_params_json rows →
      e.Targets = bucketSpec rows (entryKey e) ∧ e.Targets ≠ [])
  ∧ (∀ k, k ∈ (create_type_params_json rows).map entryKey ↔
      ∃ r, r ∈ rows ∧ pyTruthy r.parameter = true ∧ rowKeyF r = k) := by
  refine ⟨?_, ?_, ?_, ?_⟩
  · rw [create_type_params_json, create_type_params_json, groupRows, groupRows,
      groupRows_foldl_filter]
  · rw [create_keys]
    exact groupRows_keys_nodup rows
  · intro e he
    rw [create_eq_map] at he
    rcases List.mem_map.mp he with ⟨kv, hkv, hemk⟩
    have hprops := groupRows_mem_props rows kv hkv
    have hkey : entryKey e = kv.1 := by
      rw [← hemk, entryKey]
    have htgt : e.Targets = kv.2 := by
      rw [← hemk]
    rw [hkey, htgt]
    exact ⟨hprops.1, hprops.2.1⟩
  · intro k
    rw [create_keys]
    constructor
    · intro hmem
      have : ¬ (bucketLookup k (groupRows rows) = none) := by
        rw [bucketLookup_eq_none_iff]
        exact fun h => h hmem
      rw [groupRows_lookup] at this
      by_cases hnil : bucketSpec rows k = []
      · rw [if_pos hnil] at this
        exact absurd rfl this
      · exact (bucketSpec_ne_nil_iff rows k).mp hnil
    · intro hex
      have hnil : bucketSpec rows k ≠ [] := (bucketSpec_ne_nil_iff rows k).mpr hex
      by_contra hmem
      have : bucketLookup k (groupRows rows) = none :=
        (bucketLookup_eq_none_iff k (groupRows rows)).mpr hmem
      rw [groupRows_lookup, if_neg hnil] at this
      cases this

/-- Witness for C4: the three-row example of the spec yields exactly one
entry for `(P, G)` with the targets `T1` and `T2`, and that key is present. -/
theorem C4_grouping_witness :
    create_type_params_json exampleRows =
      [⟨"P", "G", [⟨"T1", "A", "V1"⟩, ⟨"T2", "B", "V2"⟩]⟩]
  ∧ ("P", "G") ∈ (create_type_params_json exampleRows).map entryKey := by
  refine ⟨rfl, ?_⟩
  exact ((C4_grouping exampleRows).2.2.2 ("P", "G")).mpr
    ⟨exampleRowA, by decide, rfl, rfl⟩

/-! ## C10: derived family and type option lists -/

/-- C10: both option lists are sorted and duplicate-free, never contain
the empty string, a family appears exactly when some record carries it as
a non-empty `family_name`, and a type appears exactly when some record
carries it as a non-empty `element_name` together with exactly the given
family (case-sensitive string equality). -/
theorem C10_option_lists (catalog : List ElementRecord) (fam : String) :
    List.Sorted (· ≤ ·) (get_family_list catalog)
  ∧ (get_family_list catalog).Nodup
  ∧ (∀ s, s ∈ get_family_list catalog ↔
      s ≠ "" ∧ ∃ r, r ∈ catalog ∧ r.family_name = some s)
  ∧ "" ∉ get_family_list catalog
  ∧ List.Sorted (· ≤ ·) (get_types_for_family catalog fam)
  ∧ (get_types_for_family catalog fam).Nodup
  ∧ (∀ s, s ∈ get_types_for_family catalog fam ↔
      s ≠ "" ∧ ∃ r, r ∈ catalog ∧ r.element_name = some s ∧ r.family_name = some fam)
  ∧ "" ∉ get_types_for_family catalog fam := by
  have hfam : ∀ s, s ∈ get_family_list catalog ↔
      s ≠ "" ∧ ∃ r, r ∈ catalog ∧ r.family_name = some s := by
    intro s
    rw [get_family_list, Finset.mem_sort, List.mem_toFinset, List.mem_filterMap]
    constructor
    · rintro ⟨r, hr, hif⟩
      by_cases hp : pyTruthy r.family_name
      · rw [if_pos hp] at hif
        rcases (pyTruthy_iff r.family_name).mp hp with ⟨v, hv, hvne⟩
        rw [hif] at hv
        exact ⟨(Option.some.inj hv) ▸ hvne, r, hr, hif⟩
      · rw [if_neg hp] at hif
        cases hif
    · rintro ⟨hs, r, hr, hfn⟩
      refine ⟨r, hr, ?_⟩
      rw [if_pos ((pyTruthy_iff r.family_name).mpr ⟨s, hfn, hs⟩)]
      exact hfn
  have htyp : ∀ s, s ∈ get_types_for_family catalog fam ↔
      s ≠ "" ∧ ∃ r, r ∈ catalog ∧ r.element_name = some s ∧ r.family_name = some fam := by
    intro s
    rw [get_types_for_family, Finset.mem_sort, List.mem_toFinset, List.mem_filterMap]
    constructor
    · rintro ⟨r, hr, hif⟩
      by_cases hp : pyTruthy r.element_name && decide (r.family_name = some fam)
      · rw [if_pos hp] at hif
        rcases (Bool.and_eq_true _ _).mp hp with ⟨h1, h2⟩
        rcases (pyTruthy_iff r.element_name).mp h1 with ⟨v, hv, hvne⟩
        rw [hif] at hv
        exact ⟨(Option.some.inj hv) ▸ hvne, r, hr, hif, of_decide_eq_true h2⟩
      · rw [if_neg hp] at hif
        cases hif
    · rintro ⟨hs, r, hr, hen, hfn⟩
      refine ⟨r, hr, ?_⟩
      rw [if_pos (by simp [(pyTruthy_iff r.element_name).mpr ⟨s, hen, hs⟩, hfn])]
      exact hen
  refine ⟨Finset.sort_sorted _ _, Finset.sort_nodup _ _, hfam, ?_,
    Finset.sort_sorted _ _, Finset.sort_nodup _ _, htyp, ?_⟩
  · intro hmem
    exact ((hfam "").mp hmem).1 rfl
  · intro hmem
    exact ((htyp "").mp hmem).1 rfl

/-- Witness for C10: on the two-record catalog, `F` is a family, the empty
string never appears, and `T` is a type of family `F`. -/
theorem C10_option_lists_witness :
    "F" ∈ get_family_list exampleCatalog
  ∧ "" ∉ get_family_list exampleCatalog
  ∧ "T" ∈ get_types_for_family exampleCatalog "F"
  ∧ "" ∉ get_types_for_family exampleCatalog "F" := by
  obtain ⟨h1, h2, h3, h4, h5, h6, h7, h8⟩ := C10_option_lists exampleCatalog "F"
  refine ⟨?_, h4, ?_, h8⟩
  · exact (h3 "F").mpr ⟨by decide, ⟨some "F", some "T", some "E1"⟩, by decide, rfl⟩
  · exact (h7 "T").mpr ⟨by decide, ⟨some "F", some "T", some "E1"⟩, by decide, rfl, rfl⟩

/-! ## C9: viewer color mapping -/

theorem mapGet_mapSet (m : List (String × String)) (k v k' : String) :
    mapGet (mapSet m k v) k' = if k' = k then some v else mapGet m k' := by
  induction m with
  | nil =>
    by_cases h : k' = k
    · subst h
      simp [mapSet, mapGet, List.find?]
    · have h' : (k == k') = false := beq_eq_false_iff_ne.mpr fun e => h e.symm
      simp [mapSet, mapGet, List.find?, h, h']
  | cons kv rest ih =>
    by_cases h1 : kv.1 = k
    · by_cases h2 : k' = k
      · subst h2
        simp [mapSet, mapGet, List.find?, h1]
      · have hb : (k == k') = false := beq_eq_false_iff_ne.mpr fun e => h2 e.symm
        have hb2 : (kv.1 == k') = false := by
          rw [h1]
          exact hb
        simp [mapSet, mapGet, List.find?, h1, h2, hb, hb2]
    · by_cases h2 : kv.1 = k'
      · have h3 : ¬ (k' = k) := fun e => h1 (h2.trans e)
        have hb : (kv.1 == k') = true := beq_iff_eq.mpr h2
        simp [mapSet, mapGet, List.find?, h1, h3, hb]
      · have hb : (kv.1 == k') = false := beq_eq_false_iff_ne.mpr h2
        simp only [mapSet, if_neg h1]
        simp only [mapGet, List.find?, hb]
        exact ih

theorem mapGet_writeExt (hex ext : String) (m : List (String × String))
    (e : ElementRecord) :
    mapGet (writeExt hex m e) ext =
      if (!(ext == "")) && (e.external_id == some ext) then some hex
      else mapGet m ext := by
  cases hid : e.external_id with
  | none => simp [writeExt, hid]
  | some s =>
    simp only [writeExt, hid]
    by_cases hs : (s == "") = true
    · have hs' : s = "" := beq_iff_eq.mp hs
      subst hs'
      rw [if_pos hs]
      by_cases hext : ext = ""
      · subst hext
        simp
      · have : ("" == ext) = false := beq_eq_false_iff_ne.mpr fun e' => hext e'.symm
        simp [this]
    · have hsb : (s == "") = false := Bool.of_not_eq_true hs
      rw [if_neg (by simp [hsb]), mapGet_mapSet]
      by_cases he : ext = s
      · subst he
        simp [hsb]
      · have : (s == ext) = false := beq_eq_false_iff_ne.mpr fun e' => he e'.symm
        simp [he, this]

theorem mapGet_foldl_writeExt (hex ext : String) (elems : List ElementRecord) :
    ∀ m, mapGet (elems.foldl (writeExt hex) m) ext =
      if (!(ext == "")) && elems.any (fun e => e.external_id == some ext)
      then some hex else mapGet m ext := by
  induction elems with
  | nil =>
    intro m
    simp
  | cons e es ih =>
    intro m
    rw [List.foldl_cons, ih (writeExt hex m e), mapGet_writeExt]
    cases hA : (!(ext == "")) <;>
      cases hB : (e.external_id == some ext) <;>
        cases hC : es.any (fun e => e.external_id == some ext) <;>
          simp [hA, hB, hC]

theorem viewStep_mapGet (catalog : List ElementRecord) (paramRows : List ParamTableRow)
    (row : AssignmentRow) (ext : String) (m : List (String × String)) :
    mapGet (viewStep catalog paramRows m row) ext =
      if rowWritesExt catalog paramRows row ext then some (colorToHex row.color)
      else mapGet m ext := by
  by_cases h1 : pyTruthy row.type_name = true
  · by_cases h2 : pyTruthy row.parameter = true
    · by_cases h3 : visibleParams paramRows (row.parameter.getD "") = true
      · by_cases hm : matchedElements catalog (row.type_name.getD "") row.family = []
        · have hw : rowWritesExt catalog paramRows row ext = false := by
            rw [rowWritesExt, hm]
            simp
          simp [viewStep, h1, h2, h3, hm, hw]
        · rw [viewStep]
          simp only [h1, h2, h3, Bool.not_true]
          rw [if_neg (by simp), if_neg (by simp), if_neg (by simp), if_neg hm]
          rw [mapGet_foldl_writeExt, rowWritesExt, rowPasses]
          simp [h1, h2, h3]
      · have h3b := Bool.of_not_eq_true h3
        simp [viewStep, rowWritesExt, rowPasses, h1, h2, h3b]
    · have h2b := Bool.of_not_eq_true h2
      simp [viewStep, rowWritesExt, rowPasses, h1, h2b]
  · have h1b := Bool.of_not_eq_true h1
    simp [viewStep, rowWritesExt, rowPasses, h1b]

theorem viewStep_skip (catalog : List ElementRecord) (paramRows : List ParamTableRow)
    (m : List (String × String)) (row : AssignmentRow)
    (h : rowPasses paramRows row = false) :
    viewStep catalog paramRows m row = m := by
  rw [rowPasses] at h
  by_cases h1 : pyTruthy row.type_name = true
  · by_cases h2 : pyTruthy row.parameter = true
    · have h3 : visibleParams paramRows (row.parameter.getD "") = false := by
        simpa [h1, h2] using h
      simp [viewStep, h1, h2, h3]
    · have h2b := Bool.of_not_eq_true h2
      simp [viewStep, h1, h2b]
  · have h1b := Bool.of_not_eq_true h1
    simp [viewStep, h1b]

theorem findFirst_append {α : Type} (p : α → Bool) (l1 l2 : List α) :
    (l1 ++ l2).find? p = match l1.find? p with
      | some a => some a
      | none => l2.find? p := by
  induction l1 with
  | nil => simp
  | cons a l ih =>
    cases hp : p a <;> simp [List.find?_cons, hp, ih]

theorem buildColorMapGo_mapGet (catalog : List ElementRecord)
    (paramRows : List ParamTableRow) (ext : String) :
    ∀ (rows : List AssignmentRow) (m : List (String × String)),
      mapGet (buildColorMapGo catalog paramRows m rows) ext =
        match lastWriter catalog paramRows rows ext with
        | some r => some (colorToHex r.color)
        | none => mapGet m ext := by
  intro rows
  induction rows with
  | nil =>
    intro m
    simp [buildColorMapGo, lastWriter]
  | cons r rs ih =>
    intro m
    rw [buildColorMapGo, ih (viewStep catalog paramRows m r)]
    have hlw : lastWriter catalog paramRows (r :: rs) ext =
        match lastWriter catalog paramRows rs ext with
        | some r' => some r'
        | none => if rowWritesExt catalog paramRows r ext then some r else none := by
      rw [lastWriter, lastWriter, List.reverse_cons, findFirst_append]
      cases rs.reverse.find? fun r => rowWritesExt catalog paramRows r ext with
      | some a => rfl
      | none =>
        cases hw : rowWritesExt catalog paramRows r ext <;>
          simp [List.find?_cons, hw]
    rw [hlw]
    cases hcase : lastWriter catalog paramRows rs ext with
    | some r' => rfl
    | none =>
      rw [viewStep_mapGet]
      cases hw : rowWritesExt catalog paramRows r ext <;> simp [hw]

/-- C9: a lookup in the external-id-to-color map built by `autodesk_view`
returns the color of the last assignment row (in row order) that passes
the guards (non-empty type, non-empty visualized parameter) and matches an
element with that external id — and `none` when no row does; rows failing
the guards leave the map untouched, and any row that writes a color passes
the guards. -/
theorem C9_color_map (catalog : List ElementRecord) (paramRows : List ParamTableRow)
    (assignments : List AssignmentRow) (ext : String) :
    mapGet (buildColorMap catalog paramRows assignments) ext =
      Option.map (fun r => colorToHex r.color)
        (lastWriter catalog paramRows assignments ext)
  ∧ (∀ r rs m, rowPasses paramRows r = false →
      buildColorMapGo catalog paramRows m (r :: rs) =
        buildColorMapGo catalog paramRows m rs)
  ∧ (∀ r, rowWritesExt catalog paramRows r ext = true →
      rowPasses paramRows r = true) := by
  refine ⟨?_, ?_, ?_⟩
  · rw [buildColorMap, buildColorMapGo_mapGet]
    cases lastWriter catalog paramRows assignments ext with
    | some r => rfl
    | none => simp [mapGet]
  · intro r rs m h
    rw [buildColorMapGo, viewStep_skip catalog paramRows m r h]
  · intro r h
    rw [rowWritesExt] at h
    exact ((Bool.and_eq_true _ _).mp ((Bool.and_eq_true _ _).mp h).1).1

/-- Witness for C9: with parameter `P` visualized, the second of two rows
coloring type `T` of family `F` wins for `E1`, and `E2` (family `G`) is
not colored. -/
theorem C9_color_map_witness :
    mapGet (buildColorMap exampleCatalog exampleParamRows exampleAssignments) "E1" =
      some "#222222"
  ∧ mapGet (buildColorMap exampleCatalog exampleParamRows exampleAssignments) "E2" =
      none := by
  have h1 := (C9_color_map exampleCatalog exampleParamRows exampleAssignments "E1").1
  have h2 := (C9_color_map exampleCatalog exampleParamRows exampleAssignments "E2").1
  exact ⟨h1.trans rfl, h2.trans rfl⟩
